import Mathlib

/-!
Verification of the kivy `ScrollView` widget (`src/kivy/uix/scrollview.py`)
against its natural-language specification.

The widget state and its event handlers are shallowly embedded over `ℚ`
(python floats become exact rationals; all guarded divisions in the source
stay guarded here).  Parts of the system that live outside the file under
`src/` (the kinematic effect classes from `kivy.effects`, the base-widget
`collide_point`, the `sp` metrics scaling) are modelled from the spec and
marked as such in their doc comments.
-/

set_option autoImplicit false

namespace ScrollViewSpec

/-- Mouse-wheel button identity carried by a wheel touch
(`touch.button` in the source, only the `scroll*` values). -/
inductive WheelButton where
  | scrolldown
  | scrollup
  | scrollleft
  | scrollright
deriving DecidableEq, Repr

/-- The `scroll_type` OptionProperty: one of `['content']`, `['bars']`,
`['bars', 'content']`, `['content', 'bars']`. -/
inductive ScrollType where
  | content
  | bars
  | barsContent
  | contentBars
deriving DecidableEq, Repr

/-- `'bars' in scroll_type`. -/
def ScrollType.hasBars : ScrollType → Bool
  | .content => false
  | _ => true

/-- `bar_pos_x` OptionProperty: `'bottom'` or `'top'`. -/
inductive BarPosX where
  | bottom
  | top
deriving DecidableEq, Repr

/-- `bar_pos_y` OptionProperty: `'left'` or `'right'`. -/
inductive BarPosY where
  | left
  | right
deriving DecidableEq, Repr

/-- Overscroll policy of a kinematic effect.  Modelled from the spec:
`Bounded` clamps `scroll` to `[min, max]` (the `ScrollEffect` class),
`Damped` lets `scroll` follow `value` beyond the bounds (the default
`DampedScrollEffect` class). -/
inductive Policy where
  | bounded
  | damped
deriving DecidableEq, Repr

/-- Modelled from the spec: the per-axis kinematic effect
(`kivy.effects`, not under `src/`).  Carries the interface fields the
controller reads and writes: `min`, `max`, `value`, `velocity` and the
published `scroll`; `last` is the reference pointer position recorded by
`start`/`update`; `active` is true while a drag is being tracked and is
cleared by `stop`/`cancel`; `pendingVelocityUpdate` records that
`trigger_velocity_update` was invoked. -/
structure Effect where
  min : ℚ := 0
  max : ℚ := 0
  value : ℚ := 0
  velocity : ℚ := 0
  scroll : ℚ := 0
  last : ℚ := 0
  active : Bool := false
  pendingVelocityUpdate : Bool := false
  policy : Policy := .damped
deriving DecidableEq, Repr

/-- Modelled from the spec: writing `value` republishes `scroll` through the
overscroll policy — `Bounded` clamps to `[min, max]`, `Damped` allows the
excursion (`scroll = value`). -/
def Effect.setValue (e : Effect) (v : ℚ) : Effect :=
  match e.policy with
  | .bounded => { e with value := v, scroll := Min.min (Max.max v e.min) e.max }
  | .damped => { e with value := v, scroll := v }

/-- Modelled from the spec: `start(pointer_pos)` begins tracking; records the
reference position; does not change `value`. -/
def Effect.start (e : Effect) (pos : ℚ) : Effect :=
  { e with active := true, last := pos }

/-- Modelled from the spec: `update(pointer_pos)` shifts `value` by the
pointer delta since the last update, applying the overscroll policy. -/
def Effect.update (e : Effect) (pos : ℚ) : Effect :=
  { e.setValue (e.value + (pos - e.last)) with last := pos }

/-- Modelled from the spec: `stop(pointer_pos)` ends active dragging
(inertia/spring-back is taken over by the per-frame tick, outside this
model). -/
def Effect.stop (e : Effect) (_pos : ℚ) : Effect :=
  { e with active := false }

/-- Modelled from the spec: `cancel()` aborts dragging/inertia immediately,
leaving `value` wherever it is. -/
def Effect.cancel (e : Effect) : Effect :=
  { e with active := false }

/-- Modelled from the spec: `trigger_velocity_update()` forces an immediate
one-shot recomputation; we record the request. -/
def Effect.trigger_velocity_update (e : Effect) : Effect :=
  { e with pendingVelocityUpdate := true }

/-- The single child of the scroll view (`self._viewport`).  `id` stands for
python object identity, used by `remove_widget`'s `is` comparison. -/
structure Widget where
  id : Nat := 0
  x : ℚ := 0
  y : ℚ := 0
  width : ℚ := 0
  height : ℚ := 0
  size_hint_x : Option ℚ := none
  size_hint_y : Option ℚ := none
deriving DecidableEq, Repr

/-- Gesture mode stored in the touch's `ud` record: `'unknown'` or
`'scroll'`. -/
inductive Mode where
  | unknown
  | scroll
deriving DecidableEq, Repr

/-- The per-touch session record `touch.ud[uid]` created by `on_touch_down`,
together with the bar-hit flags `ud['in_bar_x']`/`ud['in_bar_y']`. -/
structure Session where
  mode : Mode := .unknown
  dx : ℚ := 0
  dy : ℚ := 0
  user_stopped : Bool := false
  frames : Nat := 0
  time : ℚ := 0
  dt : ℚ := 0
  in_bar_x : Bool := false
  in_bar_y : Bool := false
deriving DecidableEq, Repr

/-- A pointer event: position, per-event deltas, timestamps and the optional
wheel button identity. -/
structure Touch where
  x : ℚ := 0
  y : ℚ := 0
  dx : ℚ := 0
  dy : ℚ := 0
  time_start : ℚ := 0
  time_update : ℚ := 0
  button : Option WheelButton := none
deriving DecidableEq, Repr

/-- The `ScrollView` widget state: its own box, the published scroll
fractions, configuration, the observed child and the two per-axis effects.
`touch` is `self._touch` together with that touch's session record;
`frames` is the external clock's current frame counter (`Clock.frames`);
`g_translate` is the content translation pushed to the canvas. -/
structure ScrollView where
  x : ℚ := 0
  y : ℚ := 0
  width : ℚ := 0
  height : ℚ := 0
  scroll_x : ℚ := 0
  scroll_y : ℚ := 1
  do_scroll_x : Bool := true
  do_scroll_y : Bool := true
  scroll_distance : ℚ := 20
  scroll_wheel_distance : ℚ := 20
  scroll_timeout : ℚ := 55
  disabled : Bool := false
  scroll_type : ScrollType := .content
  bar_width : ℚ := 2
  bar_pos_x : BarPosX := .bottom
  bar_pos_y : BarPosY := .right
  viewport : Option Widget := none
  viewport_size : ℚ × ℚ := (0, 0)
  effect_x : Option Effect := none
  effect_y : Option Effect := none
  touch : Option Session := none
  frames : Nat := 0
  g_translate : ℚ × ℚ := (0, 0)
  bar_alpha : ℚ := 1
deriving DecidableEq, Repr

/-- `self.top` (base widget property). -/
def ScrollView.top (sv : ScrollView) : ℚ := sv.y + sv.height

/-- `self.right` (base widget property). -/
def ScrollView.right (sv : ScrollView) : ℚ := sv.x + sv.width

/-- Modelled from the spec: the base widget's `collide_point`, true when the
pointer is inside the widget's bounding box. -/
def ScrollView.collide_point (sv : ScrollView) (px py : ℚ) : Bool :=
  sv.x ≤ px ∧ px ≤ sv.right ∧ sv.y ≤ py ∧ py ≤ sv.top

/-- Modelled from the spec: the `sp` metrics scaling, taken at density 1 so
a wheel step is exactly `scroll_wheel_distance` pixels. -/
def sp (v : ℚ) : ℚ := v

/-- `_get_vbar`: the vertical bar's `(position, length)`, both normalised. -/
def ScrollView._get_vbar (sv : ScrollView) : ℚ × ℚ :=
  match sv.viewport with
  | none => (0, 1)
  | some vp =>
    let vh := vp.height
    let h := sv.height
    if vh < h ∨ vh = 0 then (0, 1)
    else
      let ph := Max.max (1/100) (h / vh)
      let sy := Min.min 1 (Max.max 0 sv.scroll_y)
      let py := (1 - ph) * sy
      (py, ph)

/-- `_get_hbar`: the horizontal bar's `(position, length)`, both
normalised. -/
def ScrollView._get_hbar (sv : ScrollView) : ℚ × ℚ :=
  match sv.viewport with
  | none => (0, 1)
  | some vp =>
    let vw := vp.width
    let w := sv.width
    if vw < w ∨ vw = 0 then (0, 1)
    else
      let pw := Max.max (1/100) (w / vw)
      let sx := Min.min 1 (Max.max 0 sv.scroll_x)
      let px := (1 - pw) * sx
      (px, pw)

/-- `_update_effect_x_bounds`: refresh the X effect's `min`, `max` and
`value` from the current viewport size, widget width and `scroll_x`. -/
def ScrollView._update_effect_x_bounds (sv : ScrollView) : ScrollView :=
  match sv.viewport, sv.effect_x with
  | some _, some e =>
    let mn := -(sv.viewport_size.1 - sv.width)
    { sv with effect_x := some { e with min := mn, max := 0, value := mn * sv.scroll_x } }
  | _, _ => sv

/-- `_update_effect_y_bounds`: refresh the Y effect's `min`, `max` and
`value` from the current viewport size, widget height and `scroll_y`. -/
def ScrollView._update_effect_y_bounds (sv : ScrollView) : ScrollView :=
  match sv.viewport, sv.effect_y with
  | some _, some e =>
    let mn := -(sv.viewport_size.2 - sv.height)
    { sv with effect_y := some { e with min := mn, max := 0, value := mn * sv.scroll_y } }
  | _, _ => sv

/-- `_update_effect_bounds`: refresh both axes, guarded on the viewport and
on each effect being present. -/
def ScrollView._update_effect_bounds (sv : ScrollView) : ScrollView :=
  match sv.viewport with
  | none => sv
  | some _ =>
    let sv1 := if sv.effect_x.isSome then sv._update_effect_x_bounds else sv
    if sv1.effect_y.isSome then sv1._update_effect_y_bounds else sv1

/-- `_update_effect_x`: recompute `scroll_x` from the X effect's published
`scroll`, guarded on a scrollable range of at least one pixel. -/
def ScrollView._update_effect_x (sv : ScrollView) : ScrollView :=
  match sv.viewport, sv.effect_x with
  | some vp, some e =>
    let sw := vp.width - sv.width
    if sw < 1 then sv
    else
      let sx := e.scroll / sw
      { sv with scroll_x := -sx }
  | _, _ => sv

/-- `_update_effect_y`: recompute `scroll_y` from the Y effect's published
`scroll`, guarded on a scrollable range of at least one pixel. -/
def ScrollView._update_effect_y (sv : ScrollView) : ScrollView :=
  match sv.viewport, sv.effect_y with
  | some vp, some e =>
    let sh := vp.height - sv.height
    if sh < 1 then sv
    else
      let sy := e.scroll / sh
      { sv with scroll_y := -sy }
  | _, _ => sv

/-- `update_from_scroll` (geometry part): apply the child's `size_hint`,
then translate the content according to `scroll_x`/`scroll_y`, anchoring
left when the content fits horizontally and top when it fits vertically;
the result goes to `g_translate` and the bar alpha is reset to 1. -/
def ScrollView.update_from_scroll (sv : ScrollView) : ScrollView :=
  match sv.viewport with
  | none => sv
  | some vp0 =>
    let vp1 := match vp0.size_hint_x with
      | some shx => { vp0 with width := shx * sv.width }
      | none => vp0
    let vp := match vp1.size_hint_y with
      | some shy => { vp1 with height := shy * sv.height }
      | none => vp1
    let gx :=
      if vp.width > sv.width then
        let sw := vp.width - sv.width
        sv.x - sv.scroll_x * sw
      else sv.x
    let gy :=
      if vp.height > sv.height then
        let sh := vp.height - sv.height
        sv.y - sv.scroll_y * sh
      else sv.top - vp.height
    { sv with
      viewport := some { vp with x := 0, y := 0 }
      g_translate := (gx, gy)
      bar_alpha := 1 }

/-- `add_widget`: single-child semantics — raises when a child is already
attached, otherwise installs the widget as the viewport. -/
def ScrollView.add_widget (sv : ScrollView) (w : Widget) : Except String ScrollView :=
  match sv.viewport with
  | some _ => .error "ScrollView accept only one widget"
  | none => .ok { sv with viewport := some w, viewport_size := (w.width, w.height) }

/-- `remove_widget`: detach the widget; clears `_viewport` only when the
removed widget is the current viewport (python `is` identity). -/
def ScrollView.remove_widget (sv : ScrollView) (w : Widget) : ScrollView :=
  match sv.viewport with
  | some vp => if vp.id = w.id then { sv with viewport := none } else sv
  | none => sv

/-- Result of `_change_touch_mode`: the new state, whether the original down
was redelivered to the child (`simulate_touch_down`), and whether the check
rescheduled itself for a later frame. -/
structure CtmResult where
  sv : ScrollView
  redelivered : Bool := false
  rescheduled : Bool := false
deriving DecidableEq, Repr

/-- `_change_touch_mode`: resolve a still-`unknown` gesture to passthrough —
no-op when no touch is active, the mode already resolved or the user
stopped a scroll; reschedules itself while fewer than 3 frames have
elapsed; otherwise cancels the effects of the enabled axes, ungrabs the
touch and redelivers the original down to the child. -/
def ScrollView._change_touch_mode (sv0 : ScrollView) : CtmResult :=
  match sv0.touch with
  | none => { sv := sv0 }
  | some s =>
    if s.mode ≠ .unknown ∨ s.user_stopped then { sv := sv0 }
    else if sv0.frames - s.frames < 3 then { sv := sv0, rescheduled := true }
    else
      let sv1 :=
        if sv0.do_scroll_x then
          match sv0.effect_x with
          | some e => { sv0 with effect_x := some e.cancel }
          | none => sv0
        else sv0
      let sv2 :=
        if sv1.do_scroll_y then
          match sv1.effect_y with
          | some e => { sv1 with effect_y := some e.cancel }
          | none => sv1
        else sv1
      { sv := { sv2 with touch := none }, redelivered := true }

/-- Classification of what `on_touch_down` did with the event:
`avoided` marks `svavoid` in the touch's `ud` and returns `None`;
`consumedTrue` returns `True` with no further action;
`childSimulated` passes the event to the child via `simulate_touch_down`;
`wheel` consumed a mouse-wheel step (also marks `svavoid`);
`sessionStarted ret` created a touch session, `ret` being the handler's
return value (`none` for python `None`). -/
inductive DownOutcome where
  | avoided
  | consumedTrue
  | childSimulated
  | wheel
  | sessionStarted (ret : Option Bool)
deriving DecidableEq, Repr

/-- The two scroll axes. -/
inductive Axis where
  | x
  | y
deriving DecidableEq, Repr

/-- `ud['in_bar_x']`: the touch sits in the horizontal bar's hit-zone —
requires `'bars' in scroll_type`, a horizontally scrollable content, and
the pointer within `bar_width` of the configured edge. -/
def ScrollView.in_bar_x_at (sv : ScrollView) (vp : Widget) (t : Touch) : Bool :=
  sv.scroll_type.hasBars && decide (vp.width > sv.width) &&
    (match sv.bar_pos_x with
     | .bottom => decide (t.y < sv.y + sv.bar_width)
     | .top => decide (t.y > sv.top - sv.bar_width))

/-- `ud['in_bar_y']`: the touch sits in the vertical bar's hit-zone. -/
def ScrollView.in_bar_y_at (sv : ScrollView) (vp : Widget) (t : Touch) : Bool :=
  sv.scroll_type.hasBars && decide (vp.height > sv.height) &&
    (match sv.bar_pos_y with
     | .left => decide (t.x < sv.x + sv.bar_width)
     | .right => decide (t.x > sv.right - sv.bar_width))

/-- Which axis's effect a wheel button steps: vertical wheel buttons target
the Y effect unless the pointer is in the horizontal bar's hit-zone (and
dually for horizontal wheel buttons), gated on the source's conditions
(`effect_x`/`effect_y` present, the orthogonal `do_scroll_*`, and the
relevant axis actually scrollable). -/
def ScrollView.wheelTarget (sv : ScrollView) (vp : Widget) (ibx iby : Bool)
    (btn : WheelButton) : Option Axis :=
  if sv.effect_x.isSome ∧ sv.do_scroll_y ∧ vp.height > sv.height ∧
      (btn = .scrolldown ∨ btn = .scrollup) then
    some (if ibx then Axis.x else Axis.y)
  else if sv.effect_y.isSome ∧ sv.do_scroll_x ∧ vp.width > sv.width ∧
      (btn = .scrollleft ∨ btn = .scrollright) then
    some (if iby then Axis.y else Axis.x)
  else
    none

/-- Apply one wheel step to the chosen effect: shift `value` by
`± sp scroll_wheel_distance` clamped to `[min, max]`, zero the velocity,
request a velocity update, and let the effect's `scroll` binding recompute
the scroll fraction. -/
def ScrollView.wheelStep (sv : ScrollView) (ax : Axis) (e : Effect)
    (btn : WheelButton) : ScrollView :=
  let m := sp sv.scroll_wheel_distance
  let e1 :=
    if btn = .scrolldown ∨ btn = .scrollleft then
      { e.setValue (Max.max (e.value - m) e.min) with velocity := 0 }
    else
      { e.setValue (Min.min (e.value + m) e.max) with velocity := 0 }
  let e2 := e1.trigger_velocity_update
  match ax with
  | .x => ScrollView._update_effect_x { sv with effect_x := some e2 }
  | .y => ScrollView._update_effect_y { sv with effect_y := some e2 }

/-- Session-creation tail of `on_touch_down`: grab the touch, create the
`ud` record in `unknown` mode, start the effects of the enabled axes whose
hit point is not in their own bar, and either return early for bar hits,
resolve immediately for bar-only scrolling, or schedule the deferred mode
resolution. -/
def ScrollView.sessionStart (sv0 : ScrollView) (t : Touch) (ibx iby : Bool) :
    ScrollView × DownOutcome :=
  let s : Session := { mode := .unknown, dx := 0, dy := 0, user_stopped := false
                       frames := sv0.frames, time := t.time_start
                       in_bar_x := ibx, in_bar_y := iby }
  let sv1 := { sv0 with touch := some s }
  let sv2 :=
    if sv1.do_scroll_x ∧ ¬ ibx then
      match sv1.effect_x with
      | some e => { sv1 with effect_x := some (e.start t.x) }
      | none => sv1
    else sv1
  let sv3 :=
    if sv2.do_scroll_y ∧ ¬ iby then
      match sv2.effect_y with
      | some e => { sv2 with effect_y := some (e.start t.y) }
      | none => sv2
    else sv2
  if ibx ∨ iby then (sv3, .sessionStarted none)
  else if sv3.scroll_type = .bars then
    ((sv3._change_touch_mode).sv, .sessionStarted (some false))
  else
    (sv3, .sessionStarted (some true))

/-- `on_touch_down`: entry rejection (outside bounds, disabled, session
already active or no scrollable axis), wheel handling, then session
creation. -/
def ScrollView.on_touch_down (sv : ScrollView) (t : Touch) :
    ScrollView × DownOutcome :=
  if ¬ sv.collide_point t.x t.y then (sv, .avoided)
  else if sv.disabled then (sv, .consumedTrue)
  else if sv.touch.isSome ∨ ¬ (sv.do_scroll_x ∨ sv.do_scroll_y) then
    (sv, .childSimulated)
  else
    match sv.viewport with
    | none => (sv, .consumedTrue)
    | some vp =>
      let ibx := sv.in_bar_x_at vp t
      let iby := sv.in_bar_y_at vp t
      let wheeled : Option ScrollView :=
        match t.button with
        | none => none
        | some btn =>
          match sv.wheelTarget vp ibx iby btn with
          | none => none
          | some ax =>
            match ax, sv.effect_x, sv.effect_y with
            | .x, some e, _ => some (sv.wheelStep .x e btn)
            | .y, _, some e => some (sv.wheelStep .y e btn)
            | _, _, _ => none
      match wheeled with
      | some sv1 => (sv1, .wheel)
      | none => sv.sessionStart t ibx iby

/-- X part of the first phase of `on_touch_move`: bar dragging maps the
pointer delta directly onto a clamped `scroll_x`; content dragging feeds
the pointer to the X effect, whose `scroll` binding recomputes
`scroll_x`. -/
def ScrollView.movePhase1x (sv : ScrollView) (s : Session) (t : Touch) :
    ScrollView :=
  if sv.do_scroll_x then
    match sv.effect_x with
    | some e =>
      if s.in_bar_x then
        let dx := t.dx / (sv.width - sv.width * sv._get_hbar.2)
        { sv with scroll_x := Min.min (Max.max (sv.scroll_x + dx) 0) 1 }
      else if sv.scroll_type ≠ .bars then
        ScrollView._update_effect_x { sv with effect_x := some (e.update t.x) }
      else sv
    | none => sv
  else sv

/-- Y part of the first phase of `on_touch_move`. -/
def ScrollView.movePhase1y (sv : ScrollView) (s : Session) (t : Touch) :
    ScrollView :=
  if sv.do_scroll_y then
    match sv.effect_y with
    | some e =>
      if s.in_bar_y then
        let dy := t.dy / (sv.height - sv.height * sv._get_vbar.2)
        { sv with scroll_y := Min.min (Max.max (sv.scroll_y + dy) 0) 1 }
      else if sv.scroll_type ≠ .bars then
        ScrollView._update_effect_y { sv with effect_y := some (e.update t.y) }
      else sv
    | none => sv
  else sv

/-- Result of `on_touch_move`: the new state plus the redelivery and
rescheduling flags of an inner `_change_touch_mode` call, and the handler's
return value (`none` for python `None`). -/
structure MoveResult where
  sv : ScrollView
  redelivered : Bool := false
  rescheduled : Bool := false
  consumed : Option Bool := none
deriving DecidableEq, Repr

/-- `on_touch_move` for the grabbed touch: first feed the dragging input to
the bars or the effects, then, while the mode is `unknown`, accumulate
`|dx|`/`|dy|` and resolve — passthrough via `_change_touch_mode` when the
exceeded axis is disabled (`ud['mode']` is still `'unknown'` at that
point), or `scroll` mode when it is enabled; finally do the scroll-mode
time bookkeeping and set `user_stopped`. -/
def ScrollView.on_touch_move (sv0 : ScrollView) (t : Touch) : MoveResult :=
  match sv0.touch with
  | none => { sv := sv0, consumed := some true }
  | some s =>
    let sv1 := (sv0.movePhase1x s t).movePhase1y s t
    match s.mode with
    | .scroll =>
      let s3 := { s with
        dt := t.time_update - s.time
        time := t.time_update
        user_stopped := true }
      { sv := { sv1 with touch := some s3 }, consumed := some true }
    | .unknown =>
      let s1 := { s with dx := s.dx + |t.dx|, dy := s.dy + |t.dy| }
      if s1.dx > sv1.scroll_distance ∧ ¬ sv1.do_scroll_x then
        let c := ScrollView._change_touch_mode { sv1 with touch := some s1 }
        { sv := c.sv, redelivered := c.redelivered, rescheduled := c.rescheduled }
      else
        let mode1 := if s1.dx > sv1.scroll_distance then Mode.scroll else Mode.unknown
        if s1.dy > sv1.scroll_distance ∧ ¬ sv1.do_scroll_y then
          let c := ScrollView._change_touch_mode { sv1 with touch := some s1 }
          { sv := c.sv, redelivered := c.redelivered, rescheduled := c.rescheduled }
        else
          let mode2 := if s1.dy > sv1.scroll_distance then Mode.scroll else mode1
          let s2 := { s1 with mode := mode2 }
          if mode2 = .scroll then
            let s3 := { s2 with
              dt := t.time_update - s2.time
              time := t.time_update
              user_stopped := true }
            { sv := { sv1 with touch := some s3 }, consumed := some true }
          else
            { sv := { sv1 with touch := some s2 }, consumed := some true }

/-- Result of `on_touch_up` for the grabbed touch: the new state, whether a
synthetic down was redelivered to the child, the delay of the scheduled
deferred `_do_touch_up` (python `.2`), and whether a one-shot effect-bounds
refresh was scheduled. -/
structure UpResult where
  sv : ScrollView
  syntheticDown : Bool := false
  scheduledUpDelay : Option ℚ := none
  scheduledBoundsRefresh : Bool := false
deriving DecidableEq, Repr

/-- `on_touch_up` for the grabbed touch: ungrab, stop the effects of the
enabled non-bar axes, redeliver the down as a synthetic tap when the mode
never left `unknown` and the user did not stop a scroll, schedule the
matching deferred up, and always schedule an effect-bounds refresh. -/
def ScrollView.on_touch_up (sv0 : ScrollView) (t : Touch) : UpResult :=
  match sv0.touch with
  | none => { sv := sv0 }
  | some s =>
    let sv1 := { sv0 with touch := none }
    let sv2 :=
      if sv1.do_scroll_x then
        match sv1.effect_x with
        | some e =>
          if ¬ s.in_bar_x ∧ sv1.scroll_type ≠ .bars then
            { sv1 with effect_x := some (e.stop t.x) }
          else sv1
        | none => sv1
      else sv1
    let sv3 :=
      if sv2.do_scroll_y ∧ sv2.scroll_type ≠ .bars then
        match sv2.effect_y with
        | some e =>
          if ¬ s.in_bar_y then { sv2 with effect_y := some (e.stop t.y) } else sv2
        | none => sv2
      else sv2
    { sv := sv3
      syntheticDown := decide (s.mode = .unknown) && ! s.user_stopped
      scheduledUpDelay := if s.mode = .unknown then some (1/5) else none
      scheduledBoundsRefresh := true }

/-- `_do_touch_up`: the widgets that receive the deferred synthetic up — the
grab list is drained, dead weak references are skipped, and every surviving
grabbed widget is dispatched the up event. -/
def _do_touch_up (grab_list : List (Option Nat)) : List Nat :=
  grab_list.filterMap id

/-! ## Theorems -/

/-- Claim C5: for every frame size, content size and scroll fraction, the
bar-metrics computation returns `length = max(0.01, frame/content)` and
`position = (1 - length) * clamp(scroll, 0, 1)` when the content exceeds
the frame, and `(position 0, length 1)` otherwise; in particular at
`content = frame` the bar is `(0, 1)` regardless of the scroll fraction. -/
theorem C5_bar_metrics (sv : ScrollView) (vp : Widget)
    (hvp : sv.viewport = some vp) (hh : 0 ≤ sv.height) (hw : 0 ≤ sv.width) :
    (vp.height > sv.height →
      sv._get_vbar =
        ((1 - Max.max (1/100) (sv.height / vp.height)) *
            Min.min 1 (Max.max 0 sv.scroll_y),
          Max.max (1/100) (sv.height / vp.height))) ∧
    (vp.height ≤ sv.height → sv._get_vbar = (0, 1)) ∧
    (vp.width > sv.width →
      sv._get_hbar =
        ((1 - Max.max (1/100) (sv.width / vp.width)) *
            Min.min 1 (Max.max 0 sv.scroll_x),
          Max.max (1/100) (sv.width / vp.width))) ∧
    (vp.width ≤ sv.width → sv._get_hbar = (0, 1)) := by
  refine ⟨?_, ?_, ?_, ?_⟩
  · intro hgt
    have hpos : (0 : ℚ) < vp.height := lt_of_le_of_lt hh hgt
    simp only [ScrollView._get_vbar, hvp]
    rw [if_neg]
    push_neg
    exact ⟨le_of_lt hgt, ne_of_gt hpos⟩
  · intro hle
    rcases lt_or_eq_of_le hle with hlt | heq
    · simp only [ScrollView._get_vbar, hvp]
      rw [if_pos (Or.inl hlt)]
    · by_cases h0 : vp.height = 0
      · simp only [ScrollView._get_vbar, hvp]
        rw [if_pos (Or.inr h0)]
      · simp only [ScrollView._get_vbar, hvp]
        rw [if_neg (by push_neg; exact ⟨not_lt.mp (heq ▸ lt_irrefl vp.height), h0⟩)]
        have hdiv : sv.height / vp.height = 1 := by
          rw [← heq]; exact div_self h0
        rw [hdiv]
        have hmax : Max.max (1/100 : ℚ) 1 = 1 := max_eq_right (by norm_num)
        rw [hmax]
        norm_num
  · intro hgt
    have hpos : (0 : ℚ) < vp.width := lt_of_le_of_lt hw hgt
    simp only [ScrollView._get_hbar, hvp]
    rw [if_neg]
    push_neg
    exact ⟨le_of_lt hgt, ne_of_gt hpos⟩
  · intro hle
    rcases lt_or_eq_of_le hle with hlt | heq
    · simp only [ScrollView._get_hbar, hvp]
      rw [if_pos (Or.inl hlt)]
    · by_cases h0 : vp.width = 0
      · simp only [ScrollView._get_hbar, hvp]
        rw [if_pos (Or.inr h0)]
      · simp only [ScrollView._get_hbar, hvp]
        rw [if_neg (by push_neg; exact ⟨not_lt.mp (heq ▸ lt_irrefl vp.width), h0⟩)]
        have hdiv : sv.width / vp.width = 1 := by
          rw [← heq]; exact div_self h0
        rw [hdiv]
        have hmax : Max.max (1/100 : ℚ) 1 = 1 := max_eq_right (by norm_num)
        rw [hmax]
        norm_num

/-- Sample state for the C5 witness: 100×100 frame, 100-high and 50-wide
content (content equals the frame vertically, fits horizontally). -/
def svC5 : ScrollView :=
  { width := 100, height := 100, scroll_y := 7/10,
    viewport := some { id := 1, width := 50, height := 100 } }

/-- Witness for C5: with content height equal to the frame height the
vertical bar is `(0, 1)` even with scroll fraction `7/10`. -/
theorem C5_bar_metrics_witness : svC5._get_vbar = (0, 1) :=
  (C5_bar_metrics svC5 { id := 1, width := 50, height := 100 } rfl
    (by norm_num [svC5]) (by norm_num [svC5])).2.1 (by norm_num [svC5])

/-- Claim C6: the content translation is asymmetric for undersized content —
oversized content is translated by the scroll fraction; a horizontal
shortfall anchors left (`x = frame_x`), a vertical shortfall anchors top
(`y = frame_top - content_height`). -/
theorem C6_content_translation (sv : ScrollView) (vp : Widget)
    (hvp : sv.viewport = some vp)
    (hsx : vp.size_hint_x = none) (hsy : vp.size_hint_y = none) :
    ((vp.width > sv.width →
        sv.update_from_scroll.g_translate.1 =
          sv.x - sv.scroll_x * (vp.width - sv.width)) ∧
     (vp.width ≤ sv.width → sv.update_from_scroll.g_translate.1 = sv.x)) ∧
    ((vp.height > sv.height →
        sv.update_from_scroll.g_translate.2 =
          sv.y - sv.scroll_y * (vp.height - sv.height)) ∧
     (vp.height ≤ sv.height →
        sv.update_from_scroll.g_translate.2 = sv.top - vp.height)) := by
  simp only [ScrollView.update_from_scroll, hvp, hsx, hsy]
  refine ⟨⟨?_, ?_⟩, ⟨?_, ?_⟩⟩ <;> intro h
  · rw [if_pos h]
  · rw [if_neg (not_lt.mpr h)]
  · rw [if_pos h]
  · rw [if_neg (not_lt.mpr h)]

/-- Sample state for the C6 witness: 400-wide frame, 300-wide content
(horizontal shortfall), 1600-high content. -/
def svC6 : ScrollView :=
  { x := 10, y := 20, width := 400, height := 400, scroll_x := 1/2, scroll_y := 1/2,
    viewport := some { id := 1, width := 300, height := 1600 } }

/-- Witness for C6: the horizontally-undersized content is left-anchored
(`x = frame_x`) while the oversized vertical axis is scroll-translated. -/
theorem C6_content_translation_witness :
    svC6.update_from_scroll.g_translate.1 = svC6.x ∧
    svC6.update_from_scroll.g_translate.2 =
      svC6.y - svC6.scroll_y * (1600 - svC6.height) := by
  have h := C6_content_translation svC6 { id := 1, width := 300, height := 1600 }
    rfl rfl rfl
  exact ⟨h.1.2 (by norm_num [svC6]), h.2.1 (by norm_num [svC6])⟩

/-- Claim C10: the effect-driven scroll recomputation is a no-op whenever
the scrollable range `content - frame` is below one pixel (including zero
and negative ranges), and when it does divide, the divisor is at least 1 —
never zero or negative. -/
theorem C10_effect_guard (sv : ScrollView) (vp : Widget) (ex ey : Effect)
    (hvp : sv.viewport = some vp)
    (hex : sv.effect_x = some ex) (hey : sv.effect_y = some ey) :
    (vp.width - sv.width < 1 → sv._update_effect_x = sv) ∧
    (1 ≤ vp.width - sv.width →
      sv._update_effect_x =
        { sv with scroll_x := -(ex.scroll / (vp.width - sv.width)) }) ∧
    (vp.height - sv.height < 1 → sv._update_effect_y = sv) ∧
    (1 ≤ vp.height - sv.height →
      sv._update_effect_y =
        { sv with scroll_y := -(ey.scroll / (vp.height - sv.height)) }) := by
  refine ⟨?_, ?_, ?_, ?_⟩
  · intro h
    simp only [ScrollView._update_effect_x, hvp, hex]
    rw [if_pos h]
  · intro h
    simp only [ScrollView._update_effect_x, hvp, hex]
    rw [if_neg (not_lt.mpr h)]
  · intro h
    simp only [ScrollView._update_effect_y, hvp, hey]
    rw [if_pos h]
  · intro h
    simp only [ScrollView._update_effect_y, hvp, hey]
    rw [if_neg (not_lt.mpr h)]

/-- Sample state for the C10 witness: content exceeds the frame by half a
pixel on X (sub-pixel range, treated as non-scrollable) and by 100 on Y. -/
def svC10 : ScrollView :=
  { width := 100, height := 100, scroll_x := 1/3, scroll_y := 1/3,
    viewport := some { id := 1, width := 201/2, height := 200 },
    effect_x := some { scroll := -10 }, effect_y := some { scroll := -50 } }

/-- Witness for C10: the sub-pixel X range leaves the state untouched while
the Y axis recomputes `scroll_y = -(-50)/100 = 1/2`. -/
theorem C10_effect_guard_witness :
    svC10._update_effect_x = svC10 ∧
    svC10._update_effect_y =
      { svC10 with scroll_y := -((-50 : ℚ) / (200 - svC10.height)) } := by
  have h := C10_effect_guard svC10 { id := 1, width := 201/2, height := 200 }
    { scroll := -10 } { scroll := -50 } rfl rfl rfl
  exact ⟨h.1 (by norm_num [svC10]), h.2.2.2 (by norm_num [svC10])⟩

/-- Claim C8: adding a child to a viewport that already has one raises an
error surfaced to the caller (the failed call produces no new state, so
the existing child and viewport state are unchanged); adding a first
child, or adding again after removing the current child, succeeds. -/
theorem C8_single_child (sv : ScrollView) (c w : Widget)
    (hc : sv.viewport = some c) :
    (sv.add_widget w = .error "ScrollView accept only one widget") ∧
    (∀ sv', sv.add_widget w ≠ .ok sv') ∧
    (∀ sv0 : ScrollView, sv0.viewport = none →
      sv0.add_widget w =
        .ok { sv0 with viewport := some w, viewport_size := (w.width, w.height) }) ∧
    ((sv.remove_widget c).add_widget w =
      .ok { sv with viewport := some w, viewport_size := (w.width, w.height) }) := by
  refine ⟨?_, ?_, ?_, ?_⟩
  · simp only [ScrollView.add_widget, hc]
  · intro sv'
    simp only [ScrollView.add_widget, hc]
    exact fun h => Except.noConfusion h
  · intro sv0 h0
    simp only [ScrollView.add_widget, h0]
  · simp [ScrollView.remove_widget, ScrollView.add_widget, hc]

/-- Sample state for the C8 witness: a viewport with one child. -/
def svC8 : ScrollView :=
  { width := 100, height := 100, viewport := some { id := 3, width := 50, height := 60 } }

/-- Witness for C8: the second `add_widget` fails and an add after a remove
succeeds. -/
theorem C8_single_child_witness :
    svC8.add_widget { id := 4 } = .error "ScrollView accept only one widget" ∧
    (svC8.remove_widget { id := 3, width := 50, height := 60 }).add_widget { id := 4 } =
      .ok { svC8 with viewport := some { id := 4 }, viewport_size := (0, 0) } := by
  have h := C8_single_child svC8 { id := 3, width := 50, height := 60 } { id := 4 } rfl
  exact ⟨h.1, h.2.2.2⟩

/-- Claim C9: the effect-bounds refresh is idempotent — a second call with
unchanged frame size, content size and scroll fractions leaves each
effect's `min`, `max` and `value` exactly as the first call set them
(`min = -(content - frame)`, `max = 0`, `value = min * scroll`). -/
theorem C9_bounds_idempotent (sv : ScrollView) :
    sv._update_effect_bounds._update_effect_bounds = sv._update_effect_bounds ∧
    (∀ vp ex, sv.viewport = some vp → sv.effect_x = some ex →
      ∃ ex', sv._update_effect_bounds.effect_x = some ex' ∧
        ex'.min = -(sv.viewport_size.1 - sv.width) ∧ ex'.max = 0 ∧
        ex'.value = -(sv.viewport_size.1 - sv.width) * sv.scroll_x) ∧
    (∀ vp ey, sv.viewport = some vp → sv.effect_y = some ey →
      ∃ ey', sv._update_effect_bounds.effect_y = some ey' ∧
        ey'.min = -(sv.viewport_size.2 - sv.height) ∧ ey'.max = 0 ∧
        ey'.value = -(sv.viewport_size.2 - sv.height) * sv.scroll_y) := by
  rcases hvp : sv.viewport with _ | vp
  · simp [ScrollView._update_effect_bounds, hvp]
  · rcases hex : sv.effect_x with _ | ex <;>
      rcases hey : sv.effect_y with _ | ey <;>
        simp [ScrollView._update_effect_bounds, ScrollView._update_effect_x_bounds,
              ScrollView._update_effect_y_bounds, hvp, hex, hey]

/-- Sample state for the C9 witness. -/
def svC9 : ScrollView :=
  { width := 100, height := 100, scroll_x := 1/4, scroll_y := 3/4,
    viewport := some { id := 1, width := 300, height := 500 },
    viewport_size := (300, 500),
    effect_x := some { min := -7, max := 3, value := 5 },
    effect_y := some { min := -7, max := 3, value := 5 } }

/-- Witness for C9: the refresh is idempotent on a concrete state and sets
the X effect to `min = -200`, `max = 0`, `value = -200 * 1/4 = -50`. -/
theorem C9_bounds_idempotent_witness :
    svC9._update_effect_bounds._update_effect_bounds = svC9._update_effect_bounds ∧
    ∃ ex', svC9._update_effect_bounds.effect_x = some ex' ∧
      ex'.min = -(svC9.viewport_size.1 - svC9.width) ∧ ex'.max = 0 ∧
      ex'.value = -(svC9.viewport_size.1 - svC9.width) * svC9.scroll_x := by
  have h := C9_bounds_idempotent svC9
  exact ⟨h.1, h.2.1 { id := 1, width := 300, height := 500 }
    { min := -7, max := 3, value := 5 } rfl rfl⟩

/-- X effect for the C1 counterexample: the default damped overscroll
policy, mid-drag. -/
def effC1x : Effect :=
  { min := -100, max := 0, value := 0, scroll := 0, last := 0, active := true }

/-- Y effect for the C1 counterexample. -/
def effC1y : Effect :=
  { min := 0, max := 0, value := 0, scroll := 0, last := 0, active := true }

/-- Viewport for the C1 counterexample: 100×100 frame, 200×100 content, a
scroll-mode drag session in flight. -/
def svC1 : ScrollView :=
  { width := 100, height := 100,
    viewport := some { id := 1, width := 200, height := 100 },
    viewport_size := (200, 100),
    effect_x := some effC1x, effect_y := some effC1y,
    touch := some { mode := .scroll, user_stopped := true } }

/-- A rightwards pointer-drag step of 50 px. -/
def tC1 : Touch := { x := 50, dx := 50, y := 0, dy := 0 }

/-- Helper for concrete evaluations: `['content'] == ['bars']` is false. -/
theorem content_eq_bars_false : (ScrollType.content = ScrollType.bars) = False := by
  simp

/-- Claim C1 counterexample: one drag update under the default damped
(overscroll-allowing) effect drives the X effect's `scroll` to 50, and the
unclamped recomputation `scroll_x = -effect.scroll / (content - frame)`
publishes `scroll_x = -1/2`, outside `[0, 1]`. -/
theorem C1_counterexample :
    (svC1.on_touch_move tC1).sv.scroll_x = -(1/2) ∧
    ¬ (0 ≤ (svC1.on_touch_move tC1).sv.scroll_x ∧
        (svC1.on_touch_move tC1).sv.scroll_x ≤ 1) := by
  have h : (svC1.on_touch_move tC1).sv.scroll_x = -(1/2) := by
    norm_num [svC1, tC1, effC1x, effC1y, ScrollView.on_touch_move,
      ScrollView.movePhase1x, ScrollView.movePhase1y, Effect.update,
      Effect.setValue, ScrollView._update_effect_x, ScrollView._update_effect_y,
      content_eq_bars_false]
  refine ⟨h, fun hc => ?_⟩
  rw [h] at hc
  exact absurd hc.1 (by norm_num)

/-- Claim C1 (amended): the effect-driven recomputation keeps
`scroll_x`/`scroll_y` inside `[0, 1]` provided the effect's published
`scroll` stays within its bounds `[-(content - frame), 0]` (as under the
`Bounded` policy); the bar-drag updates clamp to `[0, 1]` unconditionally.
Under the default damped policy an overscrolling `scroll` escapes the
interval (see the counterexample). -/
theorem C1_scroll_bounds_amended (sv : ScrollView) (vp : Widget) (e : Effect)
    (s : Session) (t : Touch) :
    (sv.viewport = some vp → sv.effect_x = some e → 1 ≤ vp.width - sv.width →
      -(vp.width - sv.width) ≤ e.scroll → e.scroll ≤ 0 →
      0 ≤ sv._update_effect_x.scroll_x ∧ sv._update_effect_x.scroll_x ≤ 1) ∧
    (sv.viewport = some vp → sv.effect_y = some e → 1 ≤ vp.height - sv.height →
      -(vp.height - sv.height) ≤ e.scroll → e.scroll ≤ 0 →
      0 ≤ sv._update_effect_y.scroll_y ∧ sv._update_effect_y.scroll_y ≤ 1) ∧
    (s.in_bar_x = true → sv.do_scroll_x = true → sv.effect_x = some e →
      0 ≤ (sv.movePhase1x s t).scroll_x ∧ (sv.movePhase1x s t).scroll_x ≤ 1) ∧
    (s.in_bar_y = true → sv.do_scroll_y = true → sv.effect_y = some e →
      0 ≤ (sv.movePhase1y s t).scroll_y ∧ (sv.movePhase1y s t).scroll_y ≤ 1) := by
  refine ⟨?_, ?_, ?_, ?_⟩
  · intro hvp hex hsw hlo hhi
    have hswpos : (0 : ℚ) < vp.width - sv.width := lt_of_lt_of_le one_pos hsw
    simp only [ScrollView._update_effect_x, hvp, hex]
    rw [if_neg (not_lt.mpr hsw)]
    constructor
    · show (0 : ℚ) ≤ -(e.scroll / (vp.width - sv.width))
      rw [← neg_div]
      exact div_nonneg (neg_nonneg.mpr hhi) hswpos.le
    · show -(e.scroll / (vp.width - sv.width)) ≤ 1
      rw [← neg_div]
      exact (div_le_one hswpos).mpr (by linarith)
  · intro hvp hey hsh hlo hhi
    have hshpos : (0 : ℚ) < vp.height - sv.height := lt_of_lt_of_le one_pos hsh
    simp only [ScrollView._update_effect_y, hvp, hey]
    rw [if_neg (not_lt.mpr hsh)]
    constructor
    · show (0 : ℚ) ≤ -(e.scroll / (vp.height - sv.height))
      rw [← neg_div]
      exact div_nonneg (neg_nonneg.mpr hhi) hshpos.le
    · show -(e.scroll / (vp.height - sv.height)) ≤ 1
      rw [← neg_div]
      exact (div_le_one hshpos).mpr (by linarith)
  · intro hib hdx hex
    simp only [ScrollView.movePhase1x, hdx, hex, hib, if_true]
    exact ⟨le_min (le_max_right _ _) zero_le_one, min_le_right _ _⟩
  · intro hib hdy hey
    simp only [ScrollView.movePhase1y, hdy, hey, hib, if_true]
    exact ⟨le_min (le_max_right _ _) zero_le_one, min_le_right _ _⟩

/-- Sample state for the C1 witness: a bounded-policy effect whose scroll
sits inside its bounds. -/
def svC1w : ScrollView :=
  { width := 100, height := 100,
    viewport := some { id := 1, width := 200, height := 300 },
    effect_x := some { min := -100, max := 0, scroll := -30, policy := .bounded },
    effect_y := some { min := -200, max := 0, scroll := -30, policy := .bounded } }

/-- Witness for the amended C1: an in-bounds effect scroll yields
`scroll_x ∈ [0, 1]`. -/
theorem C1_scroll_bounds_amended_witness :
    0 ≤ svC1w._update_effect_x.scroll_x ∧ svC1w._update_effect_x.scroll_x ≤ 1 :=
  (C1_scroll_bounds_amended svC1w { id := 1, width := 200, height := 300 }
      { min := -100, max := 0, scroll := -30, policy := .bounded } {} {}).1
    rfl rfl (by norm_num [svC1w]) (by norm_num [svC1w]) (by norm_num)

/-- Sample state for the C2 counterexample: a disabled scroll view. -/
def svC2 : ScrollView := { width := 100, height := 100, disabled := true }

/-- A pointer-down inside the disabled widget's bounds. -/
def tC2 : Touch := { x := 50, y := 50 }

/-- Claim C2 counterexample: a pointer-down on a disabled widget is
consumed (`return True`), not delivered to the child. -/
theorem C2_counterexample :
    (svC2.on_touch_down tC2).2 = DownOutcome.consumedTrue ∧
    (svC2.on_touch_down tC2).2 ≠ DownOutcome.childSimulated ∧
    svC2.disabled = true := by
  have h : (svC2.on_touch_down tC2).2 = DownOutcome.consumedTrue := by
    norm_num [svC2, tC2, ScrollView.on_touch_down, ScrollView.collide_point,
      ScrollView.right, ScrollView.top]
  refine ⟨h, ?_, rfl⟩
  rw [h]
  simp

/-- Claim C2 (amended): on pointer-down, an out-of-bounds pointer marks the
event to be ignored and returns without consuming it; a disabled widget
consumes the event without passing it to the child; an already-active
session or a widget with neither axis scrollable passes the event to the
child via `simulate_touch_down`. -/
theorem C2_down_entry_amended (sv : ScrollView) (t : Touch) :
    (sv.collide_point t.x t.y = false → sv.on_touch_down t = (sv, .avoided)) ∧
    (sv.collide_point t.x t.y = true → sv.disabled = true →
      sv.on_touch_down t = (sv, .consumedTrue)) ∧
    (sv.collide_point t.x t.y = true → sv.disabled = false →
      sv.touch.isSome = true → sv.on_touch_down t = (sv, .childSimulated)) ∧
    (sv.collide_point t.x t.y = true → sv.disabled = false →
      sv.do_scroll_x = false → sv.do_scroll_y = false →
      sv.on_touch_down t = (sv, .childSimulated)) := by
  refine ⟨?_, ?_, ?_, ?_⟩
  · intro h
    simp [ScrollView.on_touch_down, h]
  · intro h1 h2
    simp [ScrollView.on_touch_down, h1, h2]
  · intro h1 h2 h3
    simp [ScrollView.on_touch_down, h1, h2, h3]
  · intro h1 h2 h3 h4
    simp [ScrollView.on_touch_down, h1, h2, h3, h4]

/-- Sample state for the C2 amended witness: a widget with an active
session. -/
def svC2w : ScrollView :=
  { width := 100, height := 100, touch := some { mode := .unknown } }

/-- Witness for the amended C2: with a session already active, a second
pointer-down is passed to the child. -/
theorem C2_down_entry_amended_witness :
    svC2w.on_touch_down tC2 = (svC2w, .childSimulated) :=
  (C2_down_entry_amended svC2w tC2).2.2.1
    (by norm_num [svC2w, tC2, ScrollView.collide_point, ScrollView.right,
      ScrollView.top]) rfl rfl

/-- Claim C3: a wheel-down event on a Y-scrollable viewport (with the
pointer outside the horizontal bar's hit-zone) steps the Y effect's value
down by exactly `scroll_wheel_distance` clamped below at `effect.min`,
zeroes its velocity, invokes `trigger_velocity_update`, and creates no
touch session. -/
theorem C3_wheel_down (sv : ScrollView) (vp : Widget) (ex ey : Effect) (t : Touch)
    (hc : sv.collide_point t.x t.y = true)
    (hd : sv.disabled = false)
    (ht : sv.touch = none)
    (hdy : sv.do_scroll_y = true)
    (hvp : sv.viewport = some vp)
    (hhs : vp.height > sv.height)
    (hex : sv.effect_x = some ex)
    (hey : sv.effect_y = some ey)
    (hibx : sv.in_bar_x_at vp t = false)
    (hbtn : t.button = some .scrolldown) :
    ∃ e', (sv.on_touch_down t).1.effect_y = some e' ∧
      e'.value = Max.max (ey.value - sv.scroll_wheel_distance) ey.min ∧
      e'.velocity = 0 ∧ e'.pendingVelocityUpdate = true ∧
      (sv.on_touch_down t).1.touch = none ∧
      (sv.on_touch_down t).2 = .wheel := by
  rcases hpol : ey.policy with _ | _ <;>
    by_cases hg : vp.height - sv.height < 1 <;>
      simp [ScrollView.on_touch_down, ScrollView.wheelTarget, ScrollView.wheelStep,
        ScrollView._update_effect_y, Effect.setValue, Effect.trigger_velocity_update,
        sp, hc, hd, ht, hdy, hvp, hhs, hex, hey, hibx, hbtn, hpol, hg]

/-- Sample state for the C3 witness: 100×300 content in a 100×100 frame,
wheel-down with the default 20 px step. -/
def svC3 : ScrollView :=
  { width := 100, height := 100,
    viewport := some { id := 1, width := 100, height := 300 },
    effect_x := some {},
    effect_y := some { min := -200, max := 0, value := -50, scroll := -50 } }

/-- A wheel-down touch inside the widget. -/
def tC3 : Touch := { x := 50, y := 50, button := some .scrolldown }

/-- Witness for C3: the concrete wheel-down steps the Y effect from -50 to
`max(-50 - 20, -200) = -70`, zeroes velocity, requests the velocity
update, and leaves no session. -/
theorem C3_wheel_down_witness :
    ∃ e', (svC3.on_touch_down tC3).1.effect_y = some e' ∧
      e'.value = Max.max ((-50 : ℚ) - svC3.scroll_wheel_distance) (-200) ∧
      e'.velocity = 0 ∧ e'.pendingVelocityUpdate = true ∧
      (svC3.on_touch_down tC3).1.touch = none ∧
      (svC3.on_touch_down tC3).2 = .wheel :=
  C3_wheel_down svC3 { id := 1, width := 100, height := 300 } {}
    { min := -200, max := 0, value := -50, scroll := -50 } tC3
    (by norm_num [svC3, tC3, ScrollView.collide_point, ScrollView.right,
      ScrollView.top])
    rfl rfl rfl rfl (by norm_num [svC3]) rfl rfl
    (by norm_num [svC3, tC3, ScrollView.in_bar_x_at, ScrollType.hasBars]) rfl

/-- The first phase of `on_touch_move` only rewrites `scroll_x`/`scroll_y`
and the dragged effects: the session pointer, frame counter, configuration
and the other axis's state pass through unchanged, and a present X effect
stays present. -/
theorem movePhase1_preserved (sv : ScrollView) (s : Session) (t : Touch) :
    ((sv.movePhase1x s t).movePhase1y s t).touch = sv.touch ∧
    ((sv.movePhase1x s t).movePhase1y s t).frames = sv.frames ∧
    ((sv.movePhase1x s t).movePhase1y s t).scroll_distance = sv.scroll_distance ∧
    ((sv.movePhase1x s t).movePhase1y s t).do_scroll_x = sv.do_scroll_x ∧
    ((sv.movePhase1x s t).movePhase1y s t).do_scroll_y = sv.do_scroll_y ∧
    (∀ e, sv.effect_x = some e →
      ∃ e2, ((sv.movePhase1x s t).movePhase1y s t).effect_x = some e2) ∧
    (sv.do_scroll_y = false →
      ((sv.movePhase1x s t).movePhase1y s t).effect_y = sv.effect_y) := by
  have hx : (sv.movePhase1x s t).touch = sv.touch ∧
      (sv.movePhase1x s t).frames = sv.frames ∧
      (sv.movePhase1x s t).scroll_distance = sv.scroll_distance ∧
      (sv.movePhase1x s t).do_scroll_x = sv.do_scroll_x ∧
      (sv.movePhase1x s t).do_scroll_y = sv.do_scroll_y ∧
      (sv.movePhase1x s t).effect_y = sv.effect_y ∧
      (sv.movePhase1x s t).viewport = sv.viewport ∧
      (∀ e, sv.effect_x = some e → ∃ e2, (sv.movePhase1x s t).effect_x = some e2) := by
    rcases hex : sv.effect_x with _ | e <;>
      rcases hvp : sv.viewport with _ | vp <;>
        simp [ScrollView.movePhase1x, ScrollView._update_effect_x, hex, hvp] <;>
          split_ifs <;> simp_all
  obtain ⟨ht1, hf1, hd1, hdx1, hdy1, hey1, hvp1, hexs1⟩ := hx
  set svx := sv.movePhase1x s t
  have hy : (svx.movePhase1y s t).touch = svx.touch ∧
      (svx.movePhase1y s t).frames = svx.frames ∧
      (svx.movePhase1y s t).scroll_distance = svx.scroll_distance ∧
      (svx.movePhase1y s t).do_scroll_x = svx.do_scroll_x ∧
      (svx.movePhase1y s t).do_scroll_y = svx.do_scroll_y ∧
      (svx.movePhase1y s t).effect_x = svx.effect_x ∧
      (svx.do_scroll_y = false → svx.movePhase1y s t = svx) := by
    rcases hey : svx.effect_y with _ | e <;>
      rcases hvp : svx.viewport with _ | vp <;>
        simp [ScrollView.movePhase1y, ScrollView._update_effect_y, hey, hvp] <;>
          split_ifs <;> simp_all
  obtain ⟨ht2, hf2, hd2, hdx2, hdy2, hex2, hid2⟩ := hy
  refine ⟨ht2.trans ht1, hf2.trans hf1, hd2.trans hd1, hdx2.trans hdx1,
    hdy2.trans hdy1, ?_, ?_⟩
  · intro e he
    obtain ⟨e2, he2⟩ := hexs1 e he
    exact ⟨e2, hex2.trans he2⟩
  · intro h
    rw [hid2 (hdy1.trans h), hey1]

/-- Claim C4 (amended): while the mode is `Unknown`, an accumulated
displacement exceeding `scroll_distance` on a disabled axis resolves the
gesture to passthrough provided at least 3 frames have elapsed since the
grab: the effects of the enabled axes (not of the disabled one) are
cancelled, the pointer is ungrabbed and the original down is redelivered
to the child; the mode is set to `Scrolling` only when the exceeded axis
is enabled. -/
theorem C4_axis_disabled_amended (sv : ScrollView) (s : Session) (t : Touch)
    (hs : sv.touch = some s)
    (hm : s.mode = .unknown)
    (hus : s.user_stopped = false)
    (hdxa : ¬ (s.dx + |t.dx| > sv.scroll_distance))
    (hdya : s.dy + |t.dy| > sv.scroll_distance)
    (hfr : ¬ (sv.frames - s.frames < 3))
    (hdsx : sv.do_scroll_x = true) :
    (∀ ex ey, sv.do_scroll_y = false → sv.effect_x = some ex →
      sv.effect_y = some ey →
      (sv.on_touch_move t).redelivered = true ∧
      (sv.on_touch_move t).sv.touch = none ∧
      (∃ ex', (sv.on_touch_move t).sv.effect_x = some ex' ∧ ex'.active = false) ∧
      (sv.on_touch_move t).sv.effect_y = some ey) ∧
    (sv.do_scroll_y = true →
      ∃ s', (sv.on_touch_move t).sv.touch = some s' ∧ s'.mode = .scroll ∧
        (sv.on_touch_move t).redelivered = false) := by
  obtain ⟨hp1, hp2, hp3, hp4, hp5, hp6, hp7⟩ := movePhase1_preserved sv s t
  constructor
  · intro ex ey hdy hex hey
    obtain ⟨ex2, hex2⟩ := hp6 ex hex
    have hey1 : ((sv.movePhase1x s t).movePhase1y s t).effect_y = some ey := by
      rw [hp7 hdy, hey]
    simp [ScrollView.on_touch_move, ScrollView._change_touch_mode, Effect.cancel,
      hs, hm, hus, hdxa, hdya, hfr, hdsx, hdy, hp1, hp2, hp3, hp4, hp5, hex2, hey1]
  · intro hdy
    simp [ScrollView.on_touch_move, hs, hm, hus, hdxa, hdya, hdsx, hdy,
      hp3, hp4, hp5]

/-- Sample state for the C4 amended witness: `do_scroll_x = false` mirrored
setup is not needed — we reuse a Y-disabled widget with both effects
present, ten frames elapsed, and a 30 px vertical drag. -/
def svC4w : ScrollView :=
  { width := 100, height := 100, do_scroll_y := false, frames := 10,
    viewport := some { id := 1, width := 200, height := 300 },
    viewport_size := (200, 300),
    effect_x := some { active := true }, effect_y := some { active := true },
    touch := some { mode := .unknown, frames := 0 } }

/-- A vertical 30 px drag step for the C4 amended witness. -/
def tC4w : Touch := { x := 0, y := 30, dx := 0, dy := 30 }

/-- Witness for the amended C4: on the concrete Y-disabled widget the drag
resolves to passthrough, the enabled X effect is cancelled and the
disabled Y effect is left untouched. -/
theorem C4_axis_disabled_amended_witness :
    (svC4w.on_touch_move tC4w).redelivered = true ∧
    (svC4w.on_touch_move tC4w).sv.touch = none ∧
    (∃ ex', (svC4w.on_touch_move tC4w).sv.effect_x = some ex' ∧
      ex'.active = false) ∧
    (svC4w.on_touch_move tC4w).sv.effect_y = some { active := true } :=
  (C4_axis_disabled_amended svC4w { mode := .unknown, frames := 0 } tC4w
      rfl rfl rfl (by norm_num [svC4w, tC4w]) (by norm_num [svC4w, tC4w])
      (by norm_num [svC4w]) rfl).1
    { active := true } { active := true } rfl rfl rfl

/-- Sample state for the C4 counterexample: `do_scroll_y = false`, both
effects present and active, a 30 px vertical drag, 10 frames elapsed. -/
def svC4 : ScrollView :=
  { width := 100, height := 100, do_scroll_y := false, frames := 10,
    viewport := some { id := 1, width := 200, height := 300 },
    viewport_size := (200, 300),
    effect_x := some { active := true }, effect_y := some { active := true },
    touch := some { mode := .unknown, frames := 0 } }

/-- A vertical 30 px drag step. -/
def tC4 : Touch := { x := 0, y := 30, dx := 0, dy := 30 }

/-- Claim C4 counterexample: the vertical drag on the Y-disabled widget does
resolve to passthrough (down redelivered, touch released), but the Y
effect is left uncancelled (`active` still true) — the claim's "both
effects are cancelled" fails. -/
theorem C4_counterexample :
    (svC4.on_touch_move tC4).redelivered = true ∧
    (svC4.on_touch_move tC4).sv.touch = none ∧
    Option.map Effect.active (svC4.on_touch_move tC4).sv.effect_y = some true := by
  norm_num [svC4, tC4, ScrollView.on_touch_move, ScrollView.movePhase1x,
    ScrollView.movePhase1y, ScrollView._update_effect_x, ScrollView._update_effect_y,
    ScrollView._change_touch_mode, Effect.update, Effect.setValue, Effect.cancel,
    content_eq_bars_false]

/-- Claim C7: on pointer-up of the grabbed touch with the mode still
`Unknown`, if `user_stopped` is false the original press is redelivered to
the child and a deferred callback at a fixed 0.2-unit delay performs the
matching synthetic up, forwarded to every widget still alive in the
pointer's grab list; if `user_stopped` is true no synthetic press is
sent. -/
theorem C7_tap_redelivery (sv : ScrollView) (s : Session) (t : Touch)
    (hs : sv.touch = some s) (hm : s.mode = .unknown) :
    (s.user_stopped = false →
      (sv.on_touch_up t).syntheticDown = true ∧
      (sv.on_touch_up t).scheduledUpDelay = some (1/5)) ∧
    (s.user_stopped = true → (sv.on_touch_up t).syntheticDown = false) ∧
    (∀ (gl : List (Option Nat)) (w : Nat), some w ∈ gl → w ∈ _do_touch_up gl) := by
  refine ⟨?_, ?_, ?_⟩
  · intro hus
    constructor <;> simp [ScrollView.on_touch_up, hs, hm, hus]
  · intro hus
    simp [ScrollView.on_touch_up, hs, hm, hus]
  · intro gl w h
    simp only [_do_touch_up, List.mem_filterMap, id]
    exact ⟨some w, h, rfl⟩

/-- Sample state for the C7 witness: a grabbed touch whose mode never left
`unknown` and who never scrolled. -/
def svC7 : ScrollView :=
  { width := 100, height := 100,
    touch := some { mode := .unknown, user_stopped := false } }

/-- Witness for C7: the release redelivers the press, schedules the up at
0.2 time units, and a widget alive in the grab list receives the up. -/
theorem C7_tap_redelivery_witness :
    (svC7.on_touch_up {}).syntheticDown = true ∧
    (svC7.on_touch_up {}).scheduledUpDelay = some (1/5) ∧
    3 ∈ _do_touch_up [some 3, none, some 5] := by
  have h := C7_tap_redelivery svC7 { mode := .unknown, user_stopped := false } {}
    rfl rfl
  exact ⟨(h.1 rfl).1, (h.1 rfl).2, h.2.2 [some 3, none, some 5] 3 (by simp)⟩

end ScrollViewSpec
